import Mathlib

/-!
Verification of the relational data model declared in `src/schema.ts`
(CodeMarketPlace). The file declares six PostgreSQL tables via drizzle-orm
(`users`, `categories`, `assets`, `cartItems`, `purchases`, `ratings`) and
derives zod insert-validation schemas from them with drizzle-zod's
`createInsertSchema(table).omit({...})`.

The development has two layers, both translated from the source:

1. A payload-validation layer modelling the derived zod object schemas.
   A column carries the facts drizzle-zod consumes (value type, `notNull`,
   presence of a default); `createInsertSchema` turns a column list into a
   zod object shape (a field is required iff it is `notNull` and has no
   default, nullable iff it is not `notNull`), and `.omit` drops named
   fields from the shape.  Zod objects parse in their default "strip" mode:
   keys not in the shape are removed from the output, never rejected.
   Payloads are JSON-like association lists so that the presence or absence
   of a key is expressible.

2. A database layer modelling the six tables as typed row lists, with
   insert operations enforcing exactly the constraints declared in the
   source: `unique()` on `users.username` and `categories.name`,
   `references(...)` foreign keys, `serial` primary keys drawn from a
   per-table sequence, and column defaults (`default(1)`,
   `default("completed")`, `default(0)`, `default(false)`, `defaultNow()`).
   Timestamps are modelled as integers (an abstract clock value is passed
   to each insert); `real` columns are modelled as rationals, since no
   declared constraint computes with them.
-/

/-- Value types a column of `src/schema.ts` can carry: `integer`/`serial`,
`real`, `text`, `boolean`, `timestamp`, and `text(...).array()`. -/
inductive FieldType where
  | fInt
  | fReal
  | fText
  | fBool
  | fTimestamp
  | fTextArray
deriving DecidableEq, Repr

/-- A JSON-like value of an insert payload.  Numbers are rationals
(`jnum`), dates (`timestamp` columns accept Date objects) carry an abstract
millisecond value. -/
inductive JValue where
  | jnull
  | jnum (q : ℚ)
  | jstr (s : String)
  | jbool (b : Bool)
  | jdate (t : ℤ)
  | jarr (xs : List JValue)

/-- An insert payload: a JSON object, i.e. an association list from keys to
values.  A key that does not occur in the list is absent from the payload. -/
def Payload := List (String × JValue)

/-- A column declaration as written in `src/schema.ts`: its TypeScript
property name, its value type, whether it is declared `notNull()` (a
`serial` primary key is implicitly not null), and whether it has a default
(`default(...)`, `defaultNow()`, or the `serial` auto-increment). -/
structure Column where
  name : String
  type : FieldType
  notNull : Bool
  hasDefault : Bool
deriving DecidableEq, Repr

/-- A field of a derived zod object shape: drizzle-zod marks a field
optional unless the column is `notNull` without a default, and nullable
exactly when the column is not `notNull`. -/
structure ZField where
  name : String
  type : FieldType
  required : Bool
  nullable : Bool
deriving DecidableEq, Repr

/-- `createInsertSchema` of drizzle-zod: derive the zod object shape from
the table's columns.  A field is required iff its column is `notNull` and
has no default; it is nullable iff its column is not `notNull`. -/
def createInsertSchema (cols : List Column) : List ZField :=
  cols.map fun c => ⟨c.name, c.type, c.notNull && !c.hasDefault, !c.notNull⟩

/-- Zod's `.omit({k₁: true, ...})`: remove the named fields from the object
shape. -/
def omitFields (shape : List ZField) (names : List String) : List ZField :=
  shape.filter fun f => !(names.contains f.name)

/-- Look a key up in a payload (first binding wins, as for a JSON object
with no duplicate keys). -/
def jlookup (k : String) : Payload → Option JValue
  | [] => none
  | (k', v) :: rest => if k' = k then some v else jlookup k rest

/-- Does a JSON value conform to a column value type?  Integer columns
require an integral number, `text(...).array()` a list of strings. -/
def checkValue : FieldType → JValue → Bool
  | .fInt, .jnum q => q.den == 1
  | .fReal, .jnum _ => true
  | .fText, .jstr _ => true
  | .fBool, .jbool _ => true
  | .fTimestamp, .jdate _ => true
  | .fTextArray, .jarr xs => xs.all fun v =>
      match v with
      | .jstr _ => true
      | _ => false
  | _, _ => false

/-- Validation of a single shape field against a payload: an absent key is
accepted iff the field is optional, an explicit `null` iff the field is
nullable, and a present value must conform to the field's type. -/
def validateField (p : Payload) (f : ZField) : Bool :=
  match jlookup f.name p with
  | none => !f.required
  | some .jnull => f.nullable
  | some v => checkValue f.type v

/-- Does a payload pass the zod object schema?  Keys outside the shape are
ignored (zod's default "strip" mode does not reject unknown keys). -/
def zodValidate (shape : List ZField) (p : Payload) : Bool :=
  shape.all (validateField p)

/-- The object a successful zod parse returns: only the shape's keys are
kept, unknown keys are stripped. -/
def parsedOut (shape : List ZField) (p : Payload) : Payload :=
  shape.filterMap fun f => (jlookup f.name p).map fun v => (f.name, v)

/-- Zod `.parse` as a total function: `some` of the stripped object on
success, `none` on a validation failure. -/
def zodParse (shape : List ZField) (p : Payload) : Option Payload :=
  if zodValidate shape p then some (parsedOut shape p) else none

/-- The `users` table of `src/schema.ts` (lines 6-15): serial `id`, unique
`username`, `password`, `displayName` (all not null), nullable `bio` and
`avatarUrl`, `joinedAt` with `defaultNow()`, `isCreator` with
`default(false)`. -/
def users : List Column :=
  [⟨"id", .fInt, true, true⟩,
   ⟨"username", .fText, true, false⟩,
   ⟨"password", .fText, true, false⟩,
   ⟨"displayName", .fText, true, false⟩,
   ⟨"bio", .fText, false, false⟩,
   ⟨"avatarUrl", .fText, false, false⟩,
   ⟨"joinedAt", .fTimestamp, false, true⟩,
   ⟨"isCreator", .fBool, false, true⟩]

/-- The `categories` table (lines 18-24): serial `id`, unique `name` (not
null), nullable `description`, `iconName` (not null), `assetCount` with
`default(0)`. -/
def categories : List Column :=
  [⟨"id", .fInt, true, true⟩,
   ⟨"name", .fText, true, false⟩,
   ⟨"description", .fText, false, false⟩,
   ⟨"iconName", .fText, true, false⟩,
   ⟨"assetCount", .fInt, false, true⟩]

/-- The `assets` table (lines 27-46): serial `id`, `title`, `previewUrl`,
`price`, `categoryId`, `creatorId` not null; `createdAt` with
`defaultNow()`; nullable `description`, `tags`, `thumbnails`, `fileUrl`,
`fileType`, `fileSize`, `s3ObjectKey`; `featured` default `false`,
`downloadCount` default `0`, `rating` default `0`. -/
def assets : List Column :=
  [⟨"id", .fInt, true, true⟩,
   ⟨"title", .fText, true, false⟩,
   ⟨"description", .fText, false, false⟩,
   ⟨"previewUrl", .fText, true, false⟩,
   ⟨"price", .fReal, true, false⟩,
   ⟨"categoryId", .fInt, true, false⟩,
   ⟨"creatorId", .fInt, true, false⟩,
   ⟨"createdAt", .fTimestamp, false, true⟩,
   ⟨"tags", .fTextArray, false, false⟩,
   ⟨"featured", .fBool, false, true⟩,
   ⟨"thumbnails", .fTextArray, false, false⟩,
   ⟨"downloadCount", .fInt, false, true⟩,
   ⟨"rating", .fReal, false, true⟩,
   ⟨"fileUrl", .fText, false, false⟩,
   ⟨"fileType", .fText, false, false⟩,
   ⟨"fileSize", .fInt, false, false⟩,
   ⟨"s3ObjectKey", .fText, false, false⟩]

/-- The `cartItems` table (lines 65-71): serial `id`, `userId` and
`assetId` not null foreign keys, `addedAt` with `defaultNow()`, `quantity`
not null with `default(1)`. -/
def cartItems : List Column :=
  [⟨"id", .fInt, true, true⟩,
   ⟨"userId", .fInt, true, false⟩,
   ⟨"assetId", .fInt, true, false⟩,
   ⟨"addedAt", .fTimestamp, false, true⟩,
   ⟨"quantity", .fInt, true, true⟩]

/-- The `purchases` table (lines 74-84): serial `id`, `userId`, `assetId`,
`amount` not null, `purchaseDate` with `defaultNow()`, nullable
`paymentIntentId` and `lastDownloadDate`, `status` default `"completed"`,
`downloadCount` default `0`. -/
def purchases : List Column :=
  [⟨"id", .fInt, true, true⟩,
   ⟨"userId", .fInt, true, false⟩,
   ⟨"assetId", .fInt, true, false⟩,
   ⟨"purchaseDate", .fTimestamp, false, true⟩,
   ⟨"amount", .fReal, true, false⟩,
   ⟨"paymentIntentId", .fText, false, false⟩,
   ⟨"status", .fText, false, true⟩,
   ⟨"downloadCount", .fInt, false, true⟩,
   ⟨"lastDownloadDate", .fTimestamp, false, false⟩]

/-- The `ratings` table (lines 87-95): serial `id`, `userId`, `assetId`,
`rating` not null (the 1-5 star value, with no range constraint declared),
nullable `comment` and `updatedAt`, `createdAt` with `defaultNow()`. -/
def ratings : List Column :=
  [⟨"id", .fInt, true, true⟩,
   ⟨"userId", .fInt, true, false⟩,
   ⟨"assetId", .fInt, true, false⟩,
   ⟨"rating", .fInt, true, false⟩,
   ⟨"comment", .fText, false, false⟩,
   ⟨"createdAt", .fTimestamp, false, true⟩,
   ⟨"updatedAt", .fTimestamp, false, false⟩]

/-- Line 49: `createInsertSchema(users).omit({ id: true, joinedAt: true })`. -/
def insertUserSchema : List ZField :=
  omitFields (createInsertSchema users) ["id", "joinedAt"]

/-- Line 50: `createInsertSchema(categories).omit({ id: true })`. -/
def insertCategorySchema : List ZField :=
  omitFields (createInsertSchema categories) ["id"]

/-- Line 51: `createInsertSchema(assets).omit({ id: true, createdAt: true,
downloadCount: true, rating: true })`. -/
def insertAssetSchema : List ZField :=
  omitFields (createInsertSchema assets) ["id", "createdAt", "downloadCount", "rating"]

/-- Line 98: `createInsertSchema(cartItems).omit({ id: true, addedAt: true })`. -/
def insertCartItemSchema : List ZField :=
  omitFields (createInsertSchema cartItems) ["id", "addedAt"]

/-- Line 99: `createInsertSchema(purchases).omit({ id: true, purchaseDate:
true, downloadCount: true, lastDownloadDate: true })`. -/
def insertPurchaseSchema : List ZField :=
  omitFields (createInsertSchema purchases) ["id", "purchaseDate", "downloadCount", "lastDownloadDate"]

/-- Line 100: `createInsertSchema(ratings).omit({ id: true, createdAt: true,
updatedAt: true })`. -/
def insertRatingSchema : List ZField :=
  omitFields (createInsertSchema ratings) ["id", "createdAt", "updatedAt"]

/-- A row of the `users` table (`User = typeof users.$inferSelect`).
Nullable columns are `Option`; timestamps are abstract integers. -/
structure User where
  id : ℤ
  username : String
  password : String
  displayName : String
  bio : Option String
  avatarUrl : Option String
  joinedAt : Option ℤ
  isCreator : Option Bool
deriving DecidableEq, Repr

/-- A row of the `categories` table. -/
structure Category where
  id : ℤ
  name : String
  description : Option String
  iconName : String
  assetCount : Option ℤ
deriving DecidableEq, Repr

/-- A row of the `assets` table.  `real` columns are rationals. -/
structure Asset where
  id : ℤ
  title : String
  description : Option String
  previewUrl : String
  price : ℚ
  categoryId : ℤ
  creatorId : ℤ
  createdAt : Option ℤ
  tags : Option (List String)
  featured : Option Bool
  thumbnails : Option (List String)
  downloadCount : Option ℤ
  rating : Option ℚ
  fileUrl : Option String
  fileType : Option String
  fileSize : Option ℤ
  s3ObjectKey : Option String
deriving DecidableEq, Repr

/-- A row of the `cart_items` table. -/
structure CartItem where
  id : ℤ
  userId : ℤ
  assetId : ℤ
  addedAt : Option ℤ
  quantity : ℤ
deriving DecidableEq, Repr

/-- A row of the `purchases` table. -/
structure Purchase where
  id : ℤ
  userId : ℤ
  assetId : ℤ
  purchaseDate : Option ℤ
  amount : ℚ
  paymentIntentId : Option String
  status : Option String
  downloadCount : Option ℤ
  lastDownloadDate : Option ℤ
deriving DecidableEq, Repr

/-- A row of the `ratings` table. -/
structure Rating where
  id : ℤ
  userId : ℤ
  assetId : ℤ
  rating : ℤ
  comment : Option String
  createdAt : Option ℤ
  updatedAt : Option ℤ
deriving DecidableEq, Repr

/-- An `InsertUser` value (`z.infer<typeof insertUserSchema>`): `id` and
`joinedAt` are omitted; `isCreator` is doubly optional — the outer `Option`
is presence in the payload (absent means the column default `false`), the
inner one is SQL null (the column is nullable). -/
structure InsertUser where
  username : String
  password : String
  displayName : String
  bio : Option String := none
  avatarUrl : Option String := none
  isCreator : Option (Option Bool) := none
deriving DecidableEq, Repr

/-- An `InsertCategory` value: only `id` is omitted, so `assetCount` may be
supplied by the client (absent means the column default `0`). -/
structure InsertCategory where
  name : String
  description : Option String := none
  iconName : String
  assetCount : Option (Option ℤ) := none
deriving DecidableEq, Repr

/-- An `InsertAsset` value: `id`, `createdAt`, `downloadCount` and `rating`
are omitted; `featured` is doubly optional (absent means the default
`false`). -/
structure InsertAsset where
  title : String
  description : Option String := none
  previewUrl : String
  price : ℚ
  categoryId : ℤ
  creatorId : ℤ
  tags : Option (List String) := none
  featured : Option (Option Bool) := none
  thumbnails : Option (List String) := none
  fileUrl : Option String := none
  fileType : Option String := none
  fileSize : Option ℤ := none
  s3ObjectKey : Option String := none
deriving DecidableEq, Repr

/-- An `InsertCartItem` value: `id` and `addedAt` are omitted; `quantity`
is optional and not null (absent means the column default `1`). -/
structure InsertCartItem where
  userId : ℤ
  assetId : ℤ
  quantity : Option ℤ := none
deriving DecidableEq, Repr

/-- An `InsertPurchase` value: `id`, `purchaseDate`, `downloadCount` and
`lastDownloadDate` are omitted; `status` is doubly optional (absent means
the column default `"completed"`). -/
structure InsertPurchase where
  userId : ℤ
  assetId : ℤ
  amount : ℚ
  paymentIntentId : Option String := none
  status : Option (Option String) := none
deriving DecidableEq, Repr

/-- An `InsertRating` value: `id`, `createdAt` and `updatedAt` are omitted. -/
structure InsertRating where
  userId : ℤ
  assetId : ℤ
  rating : ℤ
  comment : Option String := none
deriving DecidableEq, Repr

/-- The database state: the six tables as row lists, plus one `serial`
sequence per table (PostgreSQL assigns `id` from it on insert). -/
structure DB where
  userSeq : ℤ := 1
  catSeq : ℤ := 1
  assetSeq : ℤ := 1
  cartSeq : ℤ := 1
  purchaseSeq : ℤ := 1
  ratingSeq : ℤ := 1
  users : List User := []
  categories : List Category := []
  assets : List Asset := []
  cartItems : List CartItem := []
  purchases : List Purchase := []
  ratings : List Rating := []
deriving DecidableEq, Repr

/-- The error conditions the declarations imply: a `unique()` violation or
a `references(...)` (foreign key) violation. -/
inductive DBError where
  | uniqueViolation
  | foreignKeyViolation
deriving DecidableEq, Repr

/-- The row stored for an `InsertUser`: `id` from the sequence, `joinedAt`
from `defaultNow()`, `isCreator` defaulting to `false` when absent. -/
def mkUser (db : DB) (now : ℤ) (p : InsertUser) : User :=
  ⟨db.userSeq, p.username, p.password, p.displayName, p.bio, p.avatarUrl,
   some now, p.isCreator.getD (some false)⟩

/-- Insert into `users`: fails iff the `unique()` constraint on `username`
(line 8) is violated. -/
def insertUser (db : DB) (now : ℤ) (p : InsertUser) : Except DBError DB :=
  if ∃ u ∈ db.users, u.username = p.username then
    .error .uniqueViolation
  else
    .ok { db with userSeq := db.userSeq + 1, users := db.users ++ [mkUser db now p] }

/-- The row stored for an `InsertCategory`: `assetCount` defaults to `0`
when absent. -/
def mkCategory (db : DB) (p : InsertCategory) : Category :=
  ⟨db.catSeq, p.name, p.description, p.iconName, p.assetCount.getD (some 0)⟩

/-- Insert into `categories`: fails iff the `unique()` constraint on `name`
(line 20) is violated. -/
def insertCategory (db : DB) (p : InsertCategory) : Except DBError DB :=
  if ∃ c ∈ db.categories, c.name = p.name then
    .error .uniqueViolation
  else
    .ok { db with catSeq := db.catSeq + 1, categories := db.categories ++ [mkCategory db p] }

/-- The row stored for an `InsertAsset`: `createdAt` from `defaultNow()`,
`featured` defaulting to `false`, `downloadCount` to `0`, `rating` to `0`. -/
def mkAsset (db : DB) (now : ℤ) (p : InsertAsset) : Asset :=
  ⟨db.assetSeq, p.title, p.description, p.previewUrl, p.price, p.categoryId,
   p.creatorId, some now, p.tags, p.featured.getD (some false), p.thumbnails,
   some 0, some 0, p.fileUrl, p.fileType, p.fileSize, p.s3ObjectKey⟩

/-- Insert into `assets`: fails iff `categoryId` does not reference an
existing `categories` row or `creatorId` does not reference an existing
`users` row (lines 33-34). -/
def insertAsset (db : DB) (now : ℤ) (p : InsertAsset) : Except DBError DB :=
  if (∃ c ∈ db.categories, c.id = p.categoryId) ∧ (∃ u ∈ db.users, u.id = p.creatorId) then
    .ok { db with assetSeq := db.assetSeq + 1, assets := db.assets ++ [mkAsset db now p] }
  else
    .error .foreignKeyViolation

/-- The row stored for an `InsertCartItem`: `addedAt` from `defaultNow()`,
`quantity` defaulting to `1` when absent. -/
def mkCartItem (db : DB) (now : ℤ) (p : InsertCartItem) : CartItem :=
  ⟨db.cartSeq, p.userId, p.assetId, some now, p.quantity.getD 1⟩

/-- Insert into `cart_items`: fails iff `userId` or `assetId` violates its
foreign key (lines 67-68). -/
def insertCartItem (db : DB) (now : ℤ) (p : InsertCartItem) : Except DBError DB :=
  if (∃ u ∈ db.users, u.id = p.userId) ∧ (∃ a ∈ db.assets, a.id = p.assetId) then
    .ok { db with cartSeq := db.cartSeq + 1, cartItems := db.cartItems ++ [mkCartItem db now p] }
  else
    .error .foreignKeyViolation

/-- The row stored for an `InsertPurchase`: `purchaseDate` from
`defaultNow()`, `status` defaulting to `"completed"` when absent,
`downloadCount` to `0`, `lastDownloadDate` null. -/
def mkPurchase (db : DB) (now : ℤ) (p : InsertPurchase) : Purchase :=
  ⟨db.purchaseSeq, p.userId, p.assetId, some now, p.amount, p.paymentIntentId,
   p.status.getD (some "completed"), some 0, none⟩

/-- Insert into `purchases`: fails iff `userId` or `assetId` violates its
foreign key (lines 76-77). -/
def insertPurchase (db : DB) (now : ℤ) (p : InsertPurchase) : Except DBError DB :=
  if (∃ u ∈ db.users, u.id = p.userId) ∧ (∃ a ∈ db.assets, a.id = p.assetId) then
    .ok { db with purchaseSeq := db.purchaseSeq + 1,
                  purchases := db.purchases ++ [mkPurchase db now p] }
  else
    .error .foreignKeyViolation

/-- The row stored for an `InsertRating`: `createdAt` from `defaultNow()`,
`updatedAt` null.  The star value is stored as given: the table declares no
range constraint. -/
def mkRating (db : DB) (now : ℤ) (p : InsertRating) : Rating :=
  ⟨db.ratingSeq, p.userId, p.assetId, p.rating, p.comment, some now, none⟩

/-- Insert into `ratings`: fails iff `userId` or `assetId` violates its
foreign key (lines 89-90).  No uniqueness constraint covers
`(userId, assetId)`. -/
def insertRating (db : DB) (now : ℤ) (p : InsertRating) : Except DBError DB :=
  if (∃ u ∈ db.users, u.id = p.userId) ∧ (∃ a ∈ db.assets, a.id = p.assetId) then
    .ok { db with ratingSeq := db.ratingSeq + 1, ratings := db.ratings ++ [mkRating db now p] }
  else
    .error .foreignKeyViolation

/-- The database states reachable from the empty database by successful
inserts — all rows arise from insert operations, as the spec's lifecycle
section states. -/
inductive Reachable : DB → Prop
  | empty : Reachable {}
  | user {db db' : DB} {now : ℤ} {p : InsertUser} :
      Reachable db → insertUser db now p = .ok db' → Reachable db'
  | category {db db' : DB} {p : InsertCategory} :
      Reachable db → insertCategory db p = .ok db' → Reachable db'
  | asset {db db' : DB} {now : ℤ} {p : InsertAsset} :
      Reachable db → insertAsset db now p = .ok db' → Reachable db'
  | cartItem {db db' : DB} {now : ℤ} {p : InsertCartItem} :
      Reachable db → insertCartItem db now p = .ok db' → Reachable db'
  | purchase {db db' : DB} {now : ℤ} {p : InsertPurchase} :
      Reachable db → insertPurchase db now p = .ok db' → Reachable db'
  | rating {db db' : DB} {now : ℤ} {p : InsertRating} :
      Reachable db → insertRating db now p = .ok db' → Reachable db'

/-- Inversion of a successful `insertUser`: the uniqueness guard was clear
and the new state appends exactly the stored row. -/
theorem insertUser_ok {db db' : DB} {now : ℤ} {p : InsertUser}
    (h : insertUser db now p = .ok db') :
    (¬ ∃ u ∈ db.users, u.username = p.username) ∧
    db' = { db with userSeq := db.userSeq + 1, users := db.users ++ [mkUser db now p] } := by
  unfold insertUser at h
  split at h
  next hg => exact Except.noConfusion h
  next hg => exact ⟨hg, (Except.ok.inj h).symm⟩

/-- Inversion of a successful `insertCategory`. -/
theorem insertCategory_ok {db db' : DB} {p : InsertCategory}
    (h : insertCategory db p = .ok db') :
    (¬ ∃ c ∈ db.categories, c.name = p.name) ∧
    db' = { db with catSeq := db.catSeq + 1, categories := db.categories ++ [mkCategory db p] } := by
  unfold insertCategory at h
  split at h
  next hg => exact Except.noConfusion h
  next hg => exact ⟨hg, (Except.ok.inj h).symm⟩

/-- Inversion of a successful `insertAsset`: both foreign keys resolved. -/
theorem insertAsset_ok {db db' : DB} {now : ℤ} {p : InsertAsset}
    (h : insertAsset db now p = .ok db') :
    ((∃ c ∈ db.categories, c.id = p.categoryId) ∧ (∃ u ∈ db.users, u.id = p.creatorId)) ∧
    db' = { db with assetSeq := db.assetSeq + 1, assets := db.assets ++ [mkAsset db now p] } := by
  unfold insertAsset at h
  split at h
  next hg => exact ⟨hg, (Except.ok.inj h).symm⟩
  next hg => exact Except.noConfusion h

/-- Inversion of a successful `insertCartItem`. -/
theorem insertCartItem_ok {db db' : DB} {now : ℤ} {p : InsertCartItem}
    (h : insertCartItem db now p = .ok db') :
    ((∃ u ∈ db.users, u.id = p.userId) ∧ (∃ a ∈ db.assets, a.id = p.assetId)) ∧
    db' = { db with cartSeq := db.cartSeq + 1, cartItems := db.cartItems ++ [mkCartItem db now p] } := by
  unfold insertCartItem at h
  split at h
  next hg => exact ⟨hg, (Except.ok.inj h).symm⟩
  next hg => exact Except.noConfusion h

/-- Inversion of a successful `insertPurchase`. -/
theorem insertPurchase_ok {db db' : DB} {now : ℤ} {p : InsertPurchase}
    (h : insertPurchase db now p = .ok db') :
    ((∃ u ∈ db.users, u.id = p.userId) ∧ (∃ a ∈ db.assets, a.id = p.assetId)) ∧
    db' = { db with purchaseSeq := db.purchaseSeq + 1,
                    purchases := db.purchases ++ [mkPurchase db now p] } := by
  unfold insertPurchase at h
  split at h
  next hg => exact ⟨hg, (Except.ok.inj h).symm⟩
  next hg => exact Except.noConfusion h

/-- Inversion of a successful `insertRating`. -/
theorem insertRating_ok {db db' : DB} {now : ℤ} {p : InsertRating}
    (h : insertRating db now p = .ok db') :
    ((∃ u ∈ db.users, u.id = p.userId) ∧ (∃ a ∈ db.assets, a.id = p.assetId)) ∧
    db' = { db with ratingSeq := db.ratingSeq + 1, ratings := db.ratings ++ [mkRating db now p] } := by
  unfold insertRating at h
  split at h
  next hg => exact ⟨hg, (Except.ok.inj h).symm⟩
  next hg => exact Except.noConfusion h

/-- In every reachable state the usernames of the `users` rows are pairwise
distinct: the `unique()` guard blocks any insert that would duplicate one. -/
theorem users_pairwise_of_reachable {db : DB} (h : Reachable db) :
    db.users.Pairwise fun a b => a.username ≠ b.username := by
  induction h with
  | empty => exact List.Pairwise.nil
  | user hprev hins ih =>
      obtain ⟨hg, rfl⟩ := insertUser_ok hins
      refine List.pairwise_append.mpr ⟨ih, by simp, fun a ha b hb => ?_⟩
      rw [List.mem_singleton] at hb
      subst hb
      intro hab
      exact hg ⟨a, ha, hab⟩
  | category hprev hins ih =>
      obtain ⟨hg, rfl⟩ := insertCategory_ok hins
      exact ih
  | asset hprev hins ih =>
      obtain ⟨hg, rfl⟩ := insertAsset_ok hins
      exact ih
  | cartItem hprev hins ih =>
      obtain ⟨hg, rfl⟩ := insertCartItem_ok hins
      exact ih
  | purchase hprev hins ih =>
      obtain ⟨hg, rfl⟩ := insertPurchase_ok hins
      exact ih
  | rating hprev hins ih =>
      obtain ⟨hg, rfl⟩ := insertRating_ok hins
      exact ih

/-- In every reachable state the names of the `categories` rows are
pairwise distinct. -/
theorem categories_pairwise_of_reachable {db : DB} (h : Reachable db) :
    db.categories.Pairwise fun a b => a.name ≠ b.name := by
  induction h with
  | empty => exact List.Pairwise.nil
  | user hprev hins ih =>
      obtain ⟨hg, rfl⟩ := insertUser_ok hins
      exact ih
  | category hprev hins ih =>
      obtain ⟨hg, rfl⟩ := insertCategory_ok hins
      refine List.pairwise_append.mpr ⟨ih, by simp, fun a ha b hb => ?_⟩
      rw [List.mem_singleton] at hb
      subst hb
      intro hab
      exact hg ⟨a, ha, hab⟩
  | asset hprev hins ih =>
      obtain ⟨hg, rfl⟩ := insertAsset_ok hins
      exact ih
  | cartItem hprev hins ih =>
      obtain ⟨hg, rfl⟩ := insertCartItem_ok hins
      exact ih
  | purchase hprev hins ih =>
      obtain ⟨hg, rfl⟩ := insertPurchase_ok hins
      exact ih
  | rating hprev hins ih =>
      obtain ⟨hg, rfl⟩ := insertRating_ok hins
      exact ih

/-- In every reachable state both foreign keys of every `assets` row
resolve to existing `categories` and `users` rows. -/
theorem assets_fk_of_reachable {db : DB} (h : Reachable db) :
    ∀ a ∈ db.assets,
      (∃ c ∈ db.categories, c.id = a.categoryId) ∧ (∃ u ∈ db.users, u.id = a.creatorId) := by
  induction h with
  | empty => intro a ha; exact absurd ha (List.not_mem_nil a)
  | user hprev hins ih =>
      obtain ⟨hg, rfl⟩ := insertUser_ok hins
      intro a ha
      obtain ⟨⟨c, hc, hcid⟩, u, hu, huid⟩ := ih a ha
      exact ⟨⟨c, hc, hcid⟩, u, List.mem_append_left _ hu, huid⟩
  | category hprev hins ih =>
      obtain ⟨hg, rfl⟩ := insertCategory_ok hins
      intro a ha
      obtain ⟨⟨c, hc, hcid⟩, hu⟩ := ih a ha
      exact ⟨⟨c, List.mem_append_left _ hc, hcid⟩, hu⟩
  | asset hprev hins ih =>
      obtain ⟨hg, rfl⟩ := insertAsset_ok hins
      intro a ha
      rcases List.mem_append.mp ha with ha' | ha'
      · exact ih a ha'
      · rw [List.mem_singleton] at ha'
        subst ha'
        exact hg
  | cartItem hprev hins ih =>
      obtain ⟨hg, rfl⟩ := insertCartItem_ok hins
      exact ih
  | purchase hprev hins ih =>
      obtain ⟨hg, rfl⟩ := insertPurchase_ok hins
      exact ih
  | rating hprev hins ih =>
      obtain ⟨hg, rfl⟩ := insertRating_ok hins
      exact ih

/-- Extract the new state of a successful insert, with a fallback for the
error case (used only to name concrete states below). -/
def okOr (d : DB) : Except DBError DB → DB
  | .ok db => db
  | .error _ => d

/-- A first user payload. -/
def u1 : InsertUser := { username := "alice", password := "pw", displayName := "Alice" }

/-- A first category payload. -/
def c1 : InsertCategory := { name := "Art", iconName := "ri-image" }

/-- An asset payload referencing the first category and the first user. -/
def a1 : InsertAsset :=
  { title := "Pic", previewUrl := "p.png", price := 5, categoryId := 1, creatorId := 1 }

/-- The state after inserting `u1` into the empty database. -/
def dbU : DB := okOr {} (insertUser {} 0 u1)

/-- The state after additionally inserting `c1`. -/
def dbUC : DB := okOr {} (insertCategory dbU c1)

/-- The state after additionally inserting `a1`. -/
def dbUCA : DB := okOr {} (insertAsset dbUC 0 a1)

theorem insert_u1 : insertUser {} 0 u1 = .ok dbU := rfl

theorem insert_c1 : insertCategory dbU c1 = .ok dbUC := rfl

theorem insert_a1 : insertAsset dbUC 0 a1 = .ok dbUCA := rfl

theorem reachable_dbU : Reachable dbU := .user .empty insert_u1

theorem reachable_dbUC : Reachable dbUC := .category reachable_dbU insert_c1

theorem reachable_dbUCA : Reachable dbUCA := .asset reachable_dbUC insert_a1

/-- A successful zod parse returns exactly the stripped object. -/
theorem zodParse_out {S : List ZField} {p out : Payload} (h : zodParse S p = some out) :
    out = parsedOut S p := by
  unfold zodParse at h
  split at h
  next => exact (Option.some.inj h).symm
  next => exact Option.noConfusion h

/-- A key that names no field of the shape never occurs in a parse output:
zod's strip mode keeps only the shape's keys. -/
theorem jlookup_parsedOut_eq_none {k : String} {shape : List ZField} {p : Payload}
    (h : ∀ f ∈ shape, f.name ≠ k) : jlookup k (parsedOut shape p) = none := by
  induction shape with
  | nil => rfl
  | cons f rest ih =>
      have hf : f.name ≠ k := h f (List.mem_cons_self f rest)
      have hrest : ∀ g ∈ rest, g.name ≠ k := fun g hg => h g (List.mem_cons_of_mem f hg)
      unfold parsedOut
      rw [List.filterMap_cons]
      cases hl : jlookup f.name p with
      | none =>
          simp only [hl, Option.map_none']
          exact ih hrest
      | some v =>
          simp only [hl, Option.map_some']
          show jlookup k ((f.name, v) :: parsedOut rest p) = none
          simp only [jlookup]
          rw [if_neg hf]
          exact ih hrest

/-- A user payload carrying the server-generated `id` alongside the
required fields. -/
def userPayloadWithId : Payload :=
  [("username", .jstr "bob"), ("password", .jstr "pw"),
   ("displayName", .jstr "Bob"), ("id", .jnum 7)]

/-- A category payload that sets the server-maintained `assetCount`
counter. -/
def catPayloadWithCount : Payload :=
  [("name", .jstr "Art"), ("iconName", .jstr "ri-image"), ("assetCount", .jnum 5)]

/-- Claim C1 (counterexample): the derived insert schemas do not reject
payloads carrying server-generated fields.  A user payload containing `id`
passes `insertUserSchema` (zod strips unknown keys instead of rejecting
them), and a category payload containing the server-maintained counter
`assetCount` passes `insertCategorySchema` with `assetCount` surviving into
the parsed output, since line 50 omits only `id`. -/
theorem insertSchemas_accept_server_generated_fields :
    zodValidate insertUserSchema userPayloadWithId = true ∧
    zodValidate insertCategorySchema catPayloadWithCount = true ∧
    jlookup "assetCount" (parsedOut insertCategorySchema catPayloadWithCount) =
      some (.jnum 5) :=
  ⟨rfl, rfl, rfl⟩

/-- Claim C1 (amended): for every entity, the derived insert schema omits
the server-generated fields named in its `.omit` call, so a successful
parse output never contains them — they are stripped, not rejected; the
`assetCount` counter of `categories` is not omitted. -/
theorem insertSchemas_strip_omitted_fields :
    (∀ p out, zodParse insertUserSchema p = some out →
       jlookup "id" out = none ∧ jlookup "joinedAt" out = none) ∧
    (∀ p out, zodParse insertCategorySchema p = some out →
       jlookup "id" out = none) ∧
    (∀ p out, zodParse insertAssetSchema p = some out →
       jlookup "id" out = none ∧ jlookup "createdAt" out = none ∧
       jlookup "downloadCount" out = none ∧ jlookup "rating" out = none) ∧
    (∀ p out, zodParse insertCartItemSchema p = some out →
       jlookup "id" out = none ∧ jlookup "addedAt" out = none) ∧
    (∀ p out, zodParse insertPurchaseSchema p = some out →
       jlookup "id" out = none ∧ jlookup "purchaseDate" out = none ∧
       jlookup "downloadCount" out = none ∧ jlookup "lastDownloadDate" out = none) ∧
    (∀ p out, zodParse insertRatingSchema p = some out →
       jlookup "id" out = none ∧ jlookup "createdAt" out = none ∧
       jlookup "updatedAt" out = none) := by
  refine ⟨fun p out h => ?_, fun p out h => ?_, fun p out h => ?_,
          fun p out h => ?_, fun p out h => ?_, fun p out h => ?_⟩ <;>
    rw [zodParse_out h]
  · exact ⟨jlookup_parsedOut_eq_none (by decide), jlookup_parsedOut_eq_none (by decide)⟩
  · exact jlookup_parsedOut_eq_none (by decide)
  · exact ⟨jlookup_parsedOut_eq_none (by decide), jlookup_parsedOut_eq_none (by decide),
      jlookup_parsedOut_eq_none (by decide), jlookup_parsedOut_eq_none (by decide)⟩
  · exact ⟨jlookup_parsedOut_eq_none (by decide), jlookup_parsedOut_eq_none (by decide)⟩
  · exact ⟨jlookup_parsedOut_eq_none (by decide), jlookup_parsedOut_eq_none (by decide),
      jlookup_parsedOut_eq_none (by decide), jlookup_parsedOut_eq_none (by decide)⟩
  · exact ⟨jlookup_parsedOut_eq_none (by decide), jlookup_parsedOut_eq_none (by decide),
      jlookup_parsedOut_eq_none (by decide)⟩

/-- Witness for the amended C1: the parse output of a concrete user payload
that carries `id` contains neither `id` nor `joinedAt`. -/
theorem insertSchemas_strip_omitted_fields_witness :
    jlookup "id" (parsedOut insertUserSchema userPayloadWithId) = none ∧
    jlookup "joinedAt" (parsedOut insertUserSchema userPayloadWithId) = none :=
  insertSchemas_strip_omitted_fields.1 userPayloadWithId
    (parsedOut insertUserSchema userPayloadWithId) rfl

/-- A rating payload with all required fields and the out-of-range star
value `6`. -/
def ratingPayload6 : Payload :=
  [("userId", .jnum 1), ("assetId", .jnum 1), ("rating", .jnum 6)]

/-- Claim C5: `insertRatingSchema` does not reject a payload whose `rating`
lies outside 1-5 — with `userId`, `assetId` and `rating = 6` present,
validation succeeds and the parsed output carries `rating = 6`, since line
91 declares `rating` a plain `integer` with no range constraint. -/
theorem insertRatingSchema_accepts_rating_six :
    zodValidate insertRatingSchema ratingPayload6 = true ∧
    jlookup "rating" (parsedOut insertRatingSchema ratingPayload6) = some (.jnum 6) :=
  ⟨rfl, rfl⟩

/-- A user payload that sets the creator flag at account creation. -/
def userPayloadCreator : Payload :=
  [("username", .jstr "eve"), ("password", .jstr "pw"),
   ("displayName", .jstr "Eve"), ("isCreator", .jbool true)]

/-- Claim C8: `isCreator` is not excluded from the user insert schema
(line 49 omits only `id` and `joinedAt`), so a payload with
`isCreator = true` plus the required `username`, `password` and
`displayName` passes validation and the flag survives into the parsed
output. -/
theorem insertUserSchema_allows_isCreator :
    zodValidate insertUserSchema userPayloadCreator = true ∧
    jlookup "isCreator" (parsedOut insertUserSchema userPayloadCreator) =
      some (.jbool true) :=
  ⟨rfl, rfl⟩

/-- A cart payload with `quantity = 0`. -/
def cartPayloadZero : Payload :=
  [("userId", .jnum 1), ("assetId", .jnum 2), ("quantity", .jnum 0)]

/-- A cart payload with a negative `quantity`. -/
def cartPayloadNeg : Payload :=
  [("userId", .jnum 1), ("assetId", .jnum 2), ("quantity", .jnum (-3))]

/-- Claim C10: `insertCartItemSchema` imposes no lower bound on `quantity`
(line 70 declares only `integer`, `default(1)`, `notNull()`): payloads with
`quantity = 0` and with `quantity = -3` both pass validation. -/
theorem insertCartItemSchema_accepts_nonpositive_quantity :
    zodValidate insertCartItemSchema cartPayloadZero = true ∧
    zodValidate insertCartItemSchema cartPayloadNeg = true :=
  ⟨rfl, rfl⟩

/-- Claim C2: in every reachable state, every `assets` row's `categoryId`
references an existing `categories` row and its `creatorId` an existing
`users` row (the `references(...)` declarations of lines 33-34), and an
asset insert violating either foreign key fails with a foreign-key error. -/
theorem assets_fk_valid (db : DB) (h : Reachable db) (a : Asset) (ha : a ∈ db.assets)
    (now : ℤ) (p : InsertAsset)
    (hbad : ¬ ((∃ c ∈ db.categories, c.id = p.categoryId) ∧
               (∃ u ∈ db.users, u.id = p.creatorId))) :
    ((∃ c ∈ db.categories, c.id = a.categoryId) ∧ (∃ u ∈ db.users, u.id = a.creatorId)) ∧
    insertAsset db now p = .error .foreignKeyViolation := by
  refine ⟨assets_fk_of_reachable h a ha, ?_⟩
  unfold insertAsset
  rw [if_neg hbad]

/-- The asset row stored by `insert_a1`. -/
def asset1 : Asset := mkAsset dbUC 0 a1

/-- An asset payload whose `categoryId` references no existing category. -/
def aBad : InsertAsset :=
  { title := "X", previewUrl := "x.png", price := 1, categoryId := 99, creatorId := 1 }

/-- Witness for C2 at the concrete reachable state `dbUCA`. -/
theorem assets_fk_valid_witness :
    ((∃ c ∈ dbUCA.categories, c.id = asset1.categoryId) ∧
     (∃ u ∈ dbUCA.users, u.id = asset1.creatorId)) ∧
    insertAsset dbUCA 0 aBad = .error .foreignKeyViolation :=
  assets_fk_valid dbUCA reachable_dbUCA asset1 (by decide) 0 aBad (by decide)

/-- Claim C3: in every reachable state the `users` rows have pairwise
distinct usernames (the `unique()` constraint of line 8), and inserting a
user whose username equals an existing row's fails with a uniqueness error
— no new state is produced, so the table is unchanged. -/
theorem users_username_unique (db : DB) (h : Reachable db) (now : ℤ) (p : InsertUser)
    (hdup : ∃ u ∈ db.users, u.username = p.username) :
    db.users.Pairwise (fun a b => a.username ≠ b.username) ∧
    insertUser db now p = .error .uniqueViolation := by
  refine ⟨users_pairwise_of_reachable h, ?_⟩
  unfold insertUser
  rw [if_pos hdup]

/-- A second user payload reusing the username of `u1`. -/
def u1dup : InsertUser := { username := "alice", password := "x", displayName := "Alice2" }

/-- Witness for C3 at the concrete reachable state `dbU`. -/
theorem users_username_unique_witness :
    dbU.users.Pairwise (fun a b => a.username ≠ b.username) ∧
    insertUser dbU 0 u1dup = .error .uniqueViolation :=
  users_username_unique dbU reachable_dbU 0 u1dup (by decide)

/-- Claim C4: in every reachable state the `categories` rows have pairwise
distinct names (the `unique()` constraint of line 20), and inserting a
category whose name equals an existing row's fails with a uniqueness
error. -/
theorem categories_name_unique (db : DB) (h : Reachable db) (p : InsertCategory)
    (hdup : ∃ c ∈ db.categories, c.name = p.name) :
    db.categories.Pairwise (fun a b => a.name ≠ b.name) ∧
    insertCategory db p = .error .uniqueViolation := by
  refine ⟨categories_pairwise_of_reachable h, ?_⟩
  unfold insertCategory
  rw [if_pos hdup]

/-- A second category payload reusing the name of `c1`. -/
def c1dup : InsertCategory := { name := "Art", iconName := "ri-other" }

/-- Witness for C4 at the concrete reachable state `dbUC`. -/
theorem categories_name_unique_witness :
    dbUC.categories.Pairwise (fun a b => a.name ≠ b.name) ∧
    insertCategory dbUC c1dup = .error .uniqueViolation :=
  categories_name_unique dbUC reachable_dbUC c1dup (by decide)

/-- A cart payload explicitly setting `quantity = 0`. -/
def cart0 : InsertCartItem := { userId := 1, assetId := 1, quantity := some 0 }

/-- The state after inserting `cart0` into `dbUCA`. -/
def dbCart0 : DB := okOr {} (insertCartItem dbUCA 0 cart0)

theorem insert_cart0 : insertCartItem dbUCA 0 cart0 = .ok dbCart0 := rfl

theorem reachable_dbCart0 : Reachable dbCart0 := .cartItem reachable_dbUCA insert_cart0

/-- Claim C6 (counterexample): `quantity >= 1` is not an invariant of the
`cart_items` table.  Line 70 declares only `default(1).notNull()` — no
check constraint — so the insert of a payload with an explicit
`quantity = 0` succeeds, reaching a state whose single cart row has
quantity `0`. -/
theorem cartItems_quantity_zero_reachable :
    Reachable dbCart0 ∧ dbCart0.cartItems.map CartItem.quantity = [0] ∧
    ¬ ∀ r ∈ dbCart0.cartItems, 1 ≤ r.quantity :=
  ⟨reachable_dbCart0, rfl, by decide⟩

/-- Claim C6 (amended): when an insert payload omits `quantity`, the stored
row has `quantity = 1` (the declared default of line 70); rows inserted
with an explicit quantity keep it, and no lower bound is enforced. -/
theorem cartItem_quantity_default (db : DB) (now : ℤ) (p : InsertCartItem) (db' : DB)
    (h : insertCartItem db now p = .ok db') (hq : p.quantity = none)
    (r : CartItem) (hr : r ∈ db'.cartItems) :
    r ∈ db.cartItems ∨ r.quantity = 1 := by
  obtain ⟨hg, rfl⟩ := insertCartItem_ok h
  rcases List.mem_append.mp hr with h1 | h2
  · exact .inl h1
  · rw [List.mem_singleton] at h2
    subst h2
    right
    show p.quantity.getD 1 = 1
    rw [hq]
    rfl

/-- A cart payload omitting `quantity`. -/
def cartD : InsertCartItem := { userId := 1, assetId := 1 }

/-- The state after inserting `cartD` into `dbUCA`. -/
def dbCartD : DB := okOr {} (insertCartItem dbUCA 0 cartD)

/-- Witness for the amended C6: the row stored for `cartD` has quantity 1. -/
theorem cartItem_quantity_default_witness :
    mkCartItem dbUCA 0 cartD ∈ dbUCA.cartItems ∨ (mkCartItem dbUCA 0 cartD).quantity = 1 :=
  cartItem_quantity_default dbUCA 0 cartD dbCartD rfl rfl (mkCartItem dbUCA 0 cartD) (by decide)

/-- Claim C7: a purchase inserted without a `status` value is stored with
`status = "completed"` (the `default("completed")` of line 81), and the
insert's success never depends on the status value — it is free text. -/
theorem purchase_status_default (db : DB) (now : ℤ) (p : InsertPurchase) (db' : DB)
    (h : insertPurchase db now p = .ok db') (hs : p.status = none)
    (r : Purchase) (hr : r ∈ db'.purchases) (v : Option (Option String)) :
    (r ∈ db.purchases ∨ r.status = some "completed") ∧
    (insertPurchase db now { p with status := v }).isOk = true := by
  obtain ⟨hg, rfl⟩ := insertPurchase_ok h
  constructor
  · rcases List.mem_append.mp hr with h1 | h2
    · exact .inl h1
    · rw [List.mem_singleton] at h2
      subst h2
      right
      show p.status.getD (some "completed") = some "completed"
      rw [hs]
      rfl
  · have hok : insertPurchase db now { p with status := v } =
        .ok { db with purchaseSeq := db.purchaseSeq + 1,
                      purchases := db.purchases ++ [mkPurchase db now { p with status := v }] } := by
      unfold insertPurchase
      exact if_pos hg
    rw [hok]
    rfl

/-- A purchase payload omitting `status`. -/
def p1 : InsertPurchase := { userId := 1, assetId := 1, amount := 5 }

/-- The state after inserting `p1` into `dbUCA`. -/
def dbP1 : DB := okOr {} (insertPurchase dbUCA 0 p1)

/-- Witness for C7: the row stored for `p1` has status "completed", and the
same insert with an explicit free-text status also succeeds. -/
theorem purchase_status_default_witness :
    (mkPurchase dbUCA 0 p1 ∈ dbUCA.purchases ∨
     (mkPurchase dbUCA 0 p1).status = some "completed") ∧
    (insertPurchase dbUCA 0 { p1 with status := some (some "refunded") }).isOk = true :=
  purchase_status_default dbUCA 0 p1 dbP1 rfl rfl (mkPurchase dbUCA 0 p1) (by decide)
    (some (some "refunded"))

/-- A first rating of asset 1 by user 1. -/
def r1 : InsertRating := { userId := 1, assetId := 1, rating := 5 }

/-- A second rating of the same asset by the same user. -/
def r2 : InsertRating := { userId := 1, assetId := 1, rating := 2 }

/-- A first cart item linking user 1 to asset 1. -/
def ca : InsertCartItem := { userId := 1, assetId := 1, quantity := some 2 }

/-- A second cart item linking user 1 to asset 1. -/
def cb : InsertCartItem := { userId := 1, assetId := 1 }

/-- The state after inserting `r1` into `dbUCA`. -/
def dbR1 : DB := okOr {} (insertRating dbUCA 0 r1)

/-- The state after additionally inserting `r2`. -/
def dbR2 : DB := okOr {} (insertRating dbR1 0 r2)

/-- The state after additionally inserting `ca`. -/
def dbRC1 : DB := okOr {} (insertCartItem dbR2 0 ca)

/-- The state after additionally inserting `cb`: it holds two rating rows
and two cart rows for the same `(userId, assetId)` pair. -/
def dbDup : DB := okOr {} (insertCartItem dbRC1 0 cb)

theorem insert_r1 : insertRating dbUCA 0 r1 = .ok dbR1 := rfl

theorem insert_r2 : insertRating dbR1 0 r2 = .ok dbR2 := rfl

theorem insert_ca : insertCartItem dbR2 0 ca = .ok dbRC1 := rfl

theorem insert_cb : insertCartItem dbRC1 0 cb = .ok dbDup := rfl

theorem reachable_dbDup : Reachable dbDup :=
  .cartItem (.cartItem (.rating (.rating reachable_dbUCA insert_r1) insert_r2) insert_ca)
    insert_cb

/-- Claim C9: no uniqueness constraint covers `(userId, assetId)` in
`ratings` or in `cart_items` (lines 87-95 and 65-71 declare none): the
reachable state `dbDup` holds two distinct rating rows (ids 1 and 2) with
the same `userId = 1` and `assetId = 1`, and likewise two such cart rows
— one user rates (or carts) the same asset twice. -/
theorem ratings_allow_duplicate_user_asset :
    Reachable dbDup ∧
    dbDup.ratings.map (fun r => (r.id, r.userId, r.assetId)) = [(1, 1, 1), (2, 1, 1)] ∧
    dbDup.cartItems.map (fun r => (r.id, r.userId, r.assetId)) = [(1, 1, 1), (2, 1, 1)] :=
  ⟨reachable_dbDup, rfl, rfl⟩
